import Mathlib

/-!
Verification of the authentication subsystem of the fastapi_project
contacts-management backend.

The development shallowly embeds the code of `src/services/auth.py`
(the `Auth` service: token issuance and verification, the per-request
guard `get_current_user`) and `src/routes/auth.py` (the auth route
handlers: `signup`, `login`, `refresh_token`, `confirmed_email`,
`request_password_reset`, `reset_password`) together with the parts of
the data model they touch (`src/entity/models.py`, the `users` table).

Modelling conventions:
* A JWT is modelled as either a payload signed with a key or an
  undecodable string; equality of `Token` values models byte equality
  of the encoded JWTs (JWT encoding is deterministic for a fixed
  payload and key).  `jwtDecode` models `jose.jwt.decode` with its
  implicit `exp` check (a token is expired when `exp < now`, whole
  seconds, no leeway).
* Python exceptions escaping a handler are modelled by the `PyErr`
  type: `httpError` is the FastAPI `HTTPException`, while `keyError` and
  `attributeError` are the built-in exceptions `KeyError` and
  `AttributeError`, which FastAPI surfaces as a 500 response.
* The `users` table of `src/entity/models.py` declares the columns
  id, user_name, email, password, avatar, refresh_token — and no
  `confirmed` column.  The route code nevertheless reads and writes a
  `user.confirmed` attribute.  On an instance freshly loaded from the
  store that attribute is absent, so reading it raises
  `AttributeError`; this is modelled by `loadUser` (attribute absent)
  and `readConfirmed`.
* The Redis client is modelled as an association list from key to
  value together with an absolute expiry time; `redisSetex`,
  `redisGet` and `redisDel` model `setex`, `get` (with TTL filtering)
  and `delete`.
* `random.randint(100000, 999999)`, bcrypt hashing/verification and
  the Gravatar lookup are external effects; they enter the embedded
  handlers as explicit parameters.
-/

namespace FastapiProject

/-- Claims of a decoded JWT payload as this codebase builds them:
an optional `sub`, an optional `scope` tag, and numeric `iat`/`exp`
timestamps in whole seconds. -/
structure Payload where
  sub : Option String
  scope : Option String
  iat : Nat
  exp : Nat
deriving DecidableEq, Repr

/-- An encoded JWT: either a payload signed with some key, or a string
that does not decode at all. -/
inductive Token where
  | signed (key : String) (payload : Payload)
  | garbage (raw : String)
deriving DecidableEq, Repr

/-- Failure modes of `jose.jwt.decode`; all are subclasses of
`JWTError` and are caught uniformly by the code. -/
inductive JWTErr where
  | badSignature
  | badFormat
  | expiredSignature
deriving DecidableEq, Repr

/-- A Python exception escaping a handler: FastAPI `HTTPException`,
or a built-in `KeyError` / `AttributeError` (surfaced as HTTP 500). -/
inductive PyErr where
  | httpError (status : Nat) (detail : String)
  | keyError (key : String)
  | attributeError (attr : String)
deriving DecidableEq, Repr

/-- The `data` dict passed to the token factories; every call site in
the codebase passes a dict with the single key sub mapped to the email. -/
structure TokenData where
  sub : Option String
deriving DecidableEq, Repr

/-- jose.jwt.decode(token, secret, algorithms=[ALGORITHM]): fails on
undecodable input or a wrong signing key, checks the `exp` claim
against the current time (expired when `exp < now`, no leeway),
otherwise returns the payload. -/
def jwtDecode (secret : String) (now : Nat) (t : Token) : Except JWTErr Payload :=
  match t with
  | .garbage _ => .error .badFormat
  | .signed key p =>
    if key = secret then
      if p.exp < now then .error .expiredSignature else .ok p
    else .error .badSignature

/-- Auth.create_access_token: copies `data`, stamps `iat = now`,
`exp = now + expires_delta` (default 15 minutes) and
`scope = "access_token"`, and signs with the secret. -/
def create_access_token (secret : String) (now : Nat) (data : TokenData)
    (expires_delta : Option Nat) : Token :=
  .signed secret
    { sub := data.sub, scope := some "access_token",
      iat := now, exp := now + expires_delta.getD (15 * 60) }

/-- Auth.refresh_access_token: like `create_access_token` but with
default TTL 7 days and `scope = "refresh_token"`. -/
def refresh_access_token (secret : String) (now : Nat) (data : TokenData)
    (expires_delta : Option Nat) : Token :=
  .signed secret
    { sub := data.sub, scope := some "refresh_token",
      iat := now, exp := now + expires_delta.getD (7 * 24 * 60 * 60) }

/-- Auth.create_email_token: stamps `iat` and `exp = now + 1 day` and
signs; note that it adds no `scope` claim at all. -/
def create_email_token (secret : String) (now : Nat) (data : TokenData) : Token :=
  .signed secret
    { sub := data.sub, scope := none, iat := now, exp := now + 24 * 60 * 60 }

/-- Auth.decode_refresh_token: decodes the token (any `JWTError`
becomes a 401), then subscripts the payload at the scope key — a `KeyError` if
the claim is absent — accepts scope `"refresh_token"` returning
the sub claim via a defaulting get (possibly `None`), and raises a 401 for any other
scope. -/
def decode_refresh_token (secret : String) (now : Nat) (t : Token) :
    Except PyErr (Option String) :=
  match jwtDecode secret now t with
  | .error _ => .error (.httpError 401 "Could not validate credentials")
  | .ok payload =>
    match payload.scope with
    | none => .error (.keyError "scope")
    | some s =>
      if s = "refresh_token" then .ok payload.sub
      else .error (.httpError 401 "Invalid scope for token")

/-- Auth.get_email_from_token: decodes the token (any `JWTError`
becomes a 422), then evaluates `payload["sub"]` — a `KeyError` if the
claim is absent — and returns it.  No scope check is performed. -/
def get_email_from_token (secret : String) (now : Nat) (t : Token) :
    Except PyErr String :=
  match jwtDecode secret now t with
  | .error _ => .error (.httpError 422 "Invalid token for email verification")
  | .ok payload =>
    match payload.sub with
    | none => .error (.keyError "sub")
    | some email => .ok email

/-- A row of the `users` table exactly as `src/entity/models.py`
declares it: id, user_name, email (unique), password (the bcrypt
hash), nullable avatar, nullable refresh_token.  There is no
`confirmed` column. -/
structure UserRow where
  id : Nat
  user_name : String
  email : String
  password : String
  avatar : Option String
  refresh_token : Option Token
deriving DecidableEq, Repr

/-- An in-memory SQLAlchemy `User` instance: the mapped columns plus
the state of the unmapped Python attribute `confirmed` (`none` when
the attribute has never been assigned). -/
structure UserObj where
  row : UserRow
  confirmed : Option Bool
deriving DecidableEq, Repr

/-- Loading a row from the store yields an instance on which the
unmapped `confirmed` attribute is absent. -/
def loadUser (r : UserRow) : UserObj := { row := r, confirmed := none }

/-- Reading `user.confirmed`: an `AttributeError` when the attribute
was never assigned, its value otherwise. -/
def readConfirmed (u : UserObj) : Except PyErr Bool :=
  match u.confirmed with
  | none => .error (.attributeError "confirmed")
  | some b => .ok b

/-- select(User).filter(User.email == email) … .first() over the
store, modelled as the first row with the given email. -/
def findUser : List UserRow → String → Option UserRow
  | [], _ => none
  | u :: rest, email => if u.email == email then some u else findUser rest email

/-- Committing an update of the row holding the given (unique) email. -/
def updateUser (db : List UserRow) (email : String) (r : UserRow) : List UserRow :=
  db.map (fun u => if u.email == email then r else u)

/-- The Redis cache of pickled users used by `get_current_user`:
key, cached row, absolute expiry time. -/
abbrev UserCache := List (String × UserRow × Nat)

/-- First cache entry under the key, if any. -/
def cacheLookup : UserCache → String → Option (UserRow × Nat)
  | [], _ => none
  | e :: rest, k => if e.fst == k then some e.snd else cacheLookup rest k

/-- redis get on the user cache, honouring the TTL of the entry. -/
def cacheGet (cache : UserCache) (now : Nat) (k : String) : Option UserRow :=
  match cacheLookup cache k with
  | some (u, expiry) => if now < expiry then some u else none
  | none => none

/-- redis set(email, pickle.dumps(user), ex=60*60). -/
def cacheSet (cache : UserCache) (now : Nat) (k : String) (u : UserRow) : UserCache :=
  (k, u, now + 60 * 60) :: cache.filter (fun e => e.fst != k)

/-- The 401 `credentials_exception` of `Auth.get_current_user`. -/
def credentials_exception : PyErr := .httpError 401 "Could not validate credentials"

/-- Auth.get_current_user: decodes the bearer token (any `JWTError`
or a missing `sub` claim becomes the 401 `credentials_exception` —
the `scope` claim is never inspected), then resolves the subject
email through the Redis cache, falling back to the store and
populating the cache on a miss; an unknown subject is again the 401.
Returns the resolved row together with the possibly updated cache. -/
def get_current_user (secret : String) (now : Nat) (cache : UserCache)
    (db : List UserRow) (t : Token) : (Except PyErr UserRow) × UserCache :=
  match jwtDecode secret now t with
  | .error _ => (.error credentials_exception, cache)
  | .ok payload =>
    match payload.sub with
    | none => (.error credentials_exception, cache)
    | some email =>
      match cacheGet cache now email with
      | some u => (.ok u, cache)
      | none =>
        match findUser db email with
        | some u => (.ok u, cacheSet cache now email u)
        | none => (.error credentials_exception, cache)

/-- The Redis store of password-reset codes: key, value, absolute
expiry time. -/
abbrev RedisStore := List (String × String × Nat)

/-- First store entry under the key, if any. -/
def redisLookup : RedisStore → String → Option (String × Nat)
  | [], _ => none
  | e :: rest, k => if e.fst == k then some e.snd else redisLookup rest k

/-- redis get, honouring the TTL of the entry. -/
def redisGet (store : RedisStore) (now : Nat) (k : String) : Option String :=
  match redisLookup store k with
  | some (v, expiry) => if now < expiry then some v else none
  | none => none

/-- redis setex: stores the value with the given TTL, overwriting any
prior entry under the key. -/
def redisSetex (store : RedisStore) (now : Nat) (k v : String) (ttl : Nat) : RedisStore :=
  (k, v, now + ttl) :: store.filter (fun e => e.fst != k)

/-- redis delete: removes every entry under the key. -/
def redisDel : RedisStore → String → RedisStore
  | [], _ => []
  | e :: rest, k => if e.fst == k then redisDel rest k else e :: redisDel rest k

/-- Route POST /auth/signup: rejects an already-registered email with
a 409; otherwise hashes the password (`hashPw` models
`auth.get_password_hash`), best-effort derives a Gravatar avatar
(`grav` models the try/except around `Gravatar(...).get_image()`; a
failure is swallowed and the avatar left `None`), persists the new
user (there is no `confirmed` column to initialise) and returns it.
The confirmation email is dispatched fire-and-forget after commit and
does not affect the result. -/
def signup (hashPw : String → String) (grav : Except String String)
    (db : List UserRow) (user_name email password : String) (newId : Nat) :
    Except PyErr (UserRow × List UserRow) :=
  match findUser db email with
  | some _ => .error (.httpError 409 "Email already registered")
  | none =>
    let hashed_password := hashPw password
    let avatar : Option String :=
      match grav with
      | .ok a => some a
      | .error _ => none
    let new_user : UserRow :=
      { id := newId, user_name := user_name, email := email,
        password := hashed_password, avatar := avatar, refresh_token := none }
    .ok (new_user, db ++ [new_user])

/-- Route POST /auth/login: a missing user or a failed
`auth.verify_password` (modelled by `verify`) is a 401
"Invalid credentials"; then the handler reads `user.confirmed` on the
freshly loaded instance (an `AttributeError`, since the column does
not exist), raising 401 "Email not confirmed" when false; otherwise
it issues an access and a refresh token, persists the refresh token
on the user and commits, returning both tokens and the new store. -/
def login (verify : String → String → Bool) (secret : String) (now : Nat)
    (db : List UserRow) (username password : String) :
    Except PyErr (Token × Token × List UserRow) :=
  match findUser db username with
  | none => .error (.httpError 401 "Invalid credentials")
  | some user =>
    if verify password user.password then
      match readConfirmed (loadUser user) with
      | .error e => .error e
      | .ok c =>
        if c then
          let access_token := create_access_token secret now { sub := some user.email } none
          let new_refresh_token := refresh_access_token secret now { sub := some user.email } none
          .ok (access_token, new_refresh_token,
               updateUser db user.email { user with refresh_token := some new_refresh_token })
        else .error (.httpError 401 "Email not confirmed")
    else .error (.httpError 401 "Invalid credentials")

/-- Route GET /auth/refresh_token: decodes the presented credential
via `decode_refresh_token` (errors propagate); a decoded subject of
`None` matches no row (email is non-nullable), and a missing user or
a persisted refresh_token differing from the presented credential is
a 401 "Invalid refresh token"; otherwise a new access/refresh pair is
issued, the persisted refresh token is overwritten with the new one
and committed, and both tokens are returned with the new store. -/
def refresh_token (secret : String) (now : Nat) (db : List UserRow) (tok : Token) :
    Except PyErr (Token × Token × List UserRow) :=
  match decode_refresh_token secret now tok with
  | .error e => .error e
  | .ok none => .error (.httpError 401 "Invalid refresh token")
  | .ok (some email) =>
    match findUser db email with
    | none => .error (.httpError 401 "Invalid refresh token")
    | some user =>
      if user.refresh_token == some tok then
        let access_token := create_access_token secret now { sub := some email } none
        let new_refresh_token := refresh_access_token secret now { sub := some email } none
        .ok (access_token, new_refresh_token,
             updateUser db email { user with refresh_token := some new_refresh_token })
      else .error (.httpError 401 "Invalid refresh token")

/-- Route GET /auth/confirmed_email/\x7btoken\x7d: extracts the email
via `get_email_from_token` (errors propagate); an unknown user is a
400 "Verification error"; then the handler reads `user.confirmed` on
the freshly loaded instance (an `AttributeError`, since the column
does not exist).  Were the attribute readable: `true` returns the
"already confirmed" message without mutation, and `false` assigns the
unmapped attribute and commits — which persists nothing, so the store
is returned unchanged in both branches. -/
def confirmed_email (secret : String) (now : Nat) (db : List UserRow) (tok : Token) :
    Except PyErr (String × List UserRow) :=
  match get_email_from_token secret now tok with
  | .error e => .error e
  | .ok email =>
    match findUser db email with
    | none => .error (.httpError 400 "Verification error")
    | some user =>
      match readConfirmed (loadUser user) with
      | .error e => .error e
      | .ok true => .ok ("Your email is already confirmed", db)
      | .ok false => .ok ("Email confirmed successfully", db)

/-- Route POST /auth/request_password_reset: when a user with the
email exists, stores a fresh 6-digit code (`reset_code` models
the randomly drawn 6-digit integer) under the reset-code key of the email with a
3600-second TTL and schedules the reset email; in every case the
response body is the same generic acknowledgement.  Returns the
message, the new code store, and the scheduled email tasks. -/
def request_password_reset (now : Nat) (reset_code : String)
    (db : List UserRow) (store : RedisStore) (email : String) :
    String × RedisStore × List (String × String) :=
  match findUser db email with
  | some user =>
    ("If an account with that email exists, a password reset code has been sent.",
     redisSetex store now ("reset_code:" ++ email) reset_code 3600,
     [(user.email, "Your password reset code: " ++ reset_code)])
  | none =>
    ("If an account with that email exists, a password reset code has been sent.",
     store, [])

/-- Route POST /auth/reset_password: succeeds only when a stored,
unexpired code under the reset-code key of the email exactly equals the
submitted code and a user with the email exists; then the hash of the new
password is persisted and committed, the code entry is
deleted, and the success message returned.  Every other path raises
400 "Invalid code or email" and, the delete being on the success path
only, leaves both the store and the code entry untouched.  Returns
the outcome together with the resulting user store and code store. -/
def reset_password (hashPw : String → String) (now : Nat)
    (db : List UserRow) (store : RedisStore)
    (email code new_password : String) :
    (Except PyErr String) × List UserRow × RedisStore :=
  match redisGet store now ("reset_code:" ++ email) with
  | some stored_code =>
    if stored_code == code then
      match findUser db email with
      | some user =>
        (.ok "Password reset successfully",
         updateUser db email { user with password := hashPw new_password },
         redisDel store ("reset_code:" ++ email))
      | none => (.error (.httpError 400 "Invalid code or email"), db, store)
    else (.error (.httpError 400 "Invalid code or email"), db, store)
  | none => (.error (.httpError 400 "Invalid code or email"), db, store)

/-! ### Helper lemmas -/

/-- A row returned by `findUser` carries the queried email. -/
theorem findUser_email {db : List UserRow} {email : String} {row : UserRow}
    (h : findUser db email = some row) : row.email = email := by
  induction db with
  | nil => simp [findUser] at h
  | cons u rest ih =>
    by_cases hu : u.email = email
    · have h1 : findUser (u :: rest) email = some u := by simp [findUser, hu]
      rw [h1] at h
      injection h with h2
      rw [← h2]
      exact hu
    · have h1 : findUser (u :: rest) email = findUser rest email := by
        simp [findUser, hu]
      rw [h1] at h
      exact ih h

/-- After `updateUser db email r2` with `r2.email = email`, looking up
the email finds `r2`, provided the email was present before. -/
theorem findUser_updateUser {db : List UserRow} {email : String} (r2 : UserRow)
    (he : r2.email = email) {row : UserRow} (h : findUser db email = some row) :
    findUser (updateUser db email r2) email = some r2 := by
  induction db with
  | nil => simp [findUser] at h
  | cons u rest ih =>
    by_cases hu : u.email = email
    · simp [findUser, updateUser, hu, he]
    · have h2 : findUser rest email = some row := by
        simpa [findUser, hu] using h
      have h3 := ih h2
      simpa [findUser, updateUser, hu] using h3

/-- Deleting a key makes a subsequent lookup of that key miss. -/
theorem redisLookup_redisDel (store : RedisStore) (k : String) :
    redisLookup (redisDel store k) k = none := by
  induction store with
  | nil => simp [redisDel, redisLookup]
  | cons e rest ih =>
    by_cases he : e.fst = k
    · simpa [redisDel, he] using ih
    · simpa [redisDel, redisLookup, he] using ih

/-- Deleting a key makes a subsequent get of that key miss, at any time. -/
theorem redisGet_redisDel (store : RedisStore) (now : Nat) (k : String) :
    redisGet (redisDel store k) now k = none := by
  simp [redisGet, redisLookup_redisDel]

/-! ### Concrete material for witnesses and counterexamples -/

/-- A stand-in for `Auth.get_password_hash` in concrete runs. -/
def demoHash (p : String) : String := "hashed:" ++ p

/-- The matching stand-in for `Auth.verify_password`. -/
def demoVerify (plain hashed : String) : Bool := hashed == "hashed:" ++ plain

/-- A concrete persisted user for concrete runs. -/
def demoUser : UserRow :=
  { id := 1, user_name := "alice", email := "a@x.com",
    password := "hashed:pw", avatar := none, refresh_token := none }

/-- A refresh token persisted for the demo user, issued at time 5. -/
def demoRefreshTok1 : Token := refresh_access_token "secret" 5 { sub := some "a@x.com" } none

/-- A superseded refresh token for the same subject, issued at time 0. -/
def demoRefreshTok0 : Token := refresh_access_token "secret" 0 { sub := some "a@x.com" } none

/-- The demo user with `demoRefreshTok1` persisted as current. -/
def demoUserR : UserRow := { demoUser with refresh_token := some demoRefreshTok1 }

/-! ### C1 — token scope separation -/

/-- C1 counterexample: the claim says tokens of a wrong scope are
rejected by every verifying operation, in particular by
`get_email_from_token` and `get_current_user`.  In fact an
access-scoped token is accepted by the email-confirmation
verification, and a refresh-scoped token is accepted by the
access-token verification of the guard. -/
theorem C1_counterexample :
    get_email_from_token "secret" 0
        (create_access_token "secret" 0 { sub := some "a@x.com" } none) =
      Except.ok "a@x.com" ∧
    (get_current_user "secret" 0 [] [demoUser]
        (refresh_access_token "secret" 0 { sub := some "a@x.com" } none)).1 =
      Except.ok demoUser :=
  ⟨rfl, rfl⟩

/-- C1 (amended): scope separation is enforced only by
`decode_refresh_token` — a validly decoded token whose `scope` claim
is not `"refresh_token"` is never accepted there — while
`get_email_from_token` and `get_current_user` ignore the scope claim
entirely and accept any validly signed, unexpired token that carries
a subject. -/
theorem C1_scope_enforcement (secret : String) (now : Nat) (t : Token) (p : Payload)
    (hdec : jwtDecode secret now t = Except.ok p) :
    (p.scope ≠ some "refresh_token" →
      ∀ s, decode_refresh_token secret now t ≠ Except.ok s) ∧
    (∀ email, p.sub = some email →
      get_email_from_token secret now t = Except.ok email) ∧
    (∀ email cache db row, p.sub = some email → cacheGet cache now email = none →
      findUser db email = some row →
      (get_current_user secret now cache db t).1 = Except.ok row) := by
  refine ⟨?_, ?_, ?_⟩
  · intro hscope s hok
    simp only [decode_refresh_token, hdec] at hok
    cases hp : p.scope with
    | none => simp [hp] at hok
    | some sc =>
      simp only [hp] at hok
      by_cases hsc : sc = "refresh_token"
      · exact hscope (by rw [hp, hsc])
      · simp [hsc] at hok
  · intro email hsub
    simp [get_email_from_token, hdec, hsub]
  · intro email cache db row hsub hcache hfind
    simp [get_current_user, hdec, hsub, hcache, hfind]

/-- C1 witness: a scope-free email token is not accepted by
`decode_refresh_token`, and a refresh-scoped token is accepted by
`get_email_from_token`; both via `C1_scope_enforcement` at concrete
inputs. -/
theorem C1_scope_enforcement_witness :
    decode_refresh_token "secret" 0
        (create_email_token "secret" 0 { sub := some "a@x.com" }) ≠
      Except.ok (some "a@x.com") ∧
    get_email_from_token "secret" 0
        (refresh_access_token "secret" 0 { sub := some "a@x.com" } none) =
      Except.ok "a@x.com" := by
  constructor
  · exact (C1_scope_enforcement "secret" 0
      (create_email_token "secret" 0 { sub := some "a@x.com" })
      { sub := some "a@x.com", scope := none, iat := 0, exp := 24 * 60 * 60 }
      rfl).1 (by decide) (some "a@x.com")
  · exact (C1_scope_enforcement "secret" 0
      (refresh_access_token "secret" 0 { sub := some "a@x.com" } none)
      { sub := some "a@x.com", scope := some "refresh_token", iat := 0,
        exp := 7 * 24 * 60 * 60 }
      rfl).2.1 "a@x.com" rfl

/-! ### C2 — single active refresh token per principal -/

/-- In this code a `login` call can never return tokens: after the
credential check succeeds it always reads the absent `confirmed`
attribute of the freshly loaded user, so every run ends in an error
before the token-issuing branch. -/
theorem login_never_issues_tokens (verify : String → String → Bool)
    (secret : String) (now : Nat) (db : List UserRow)
    (username password : String) (res : Token × Token × List UserRow) :
    login verify secret now db username password ≠ Except.ok res := by
  intro hok
  cases hfind : findUser db username with
  | none => simp [login, hfind] at hok
  | some user =>
    by_cases hv : verify password user.password
    · simp [login, hfind, hv, readConfirmed, loadUser] at hok
    · simp [login, hfind, hv] at hok

/-- C2: a successful refresh call always overwrites the persisted
refresh-token value of the subject with the newly issued one (rotation);
presenting a refresh token whose value does not equal the
persisted one — in particular one superseded by a later rotation for
the same subject — or whose subject has no principal, fails with the
401 "Invalid refresh token" without issuing tokens or touching the
store; and every successful login call likewise overwrites the
persisted refresh-token value of the principal it logged in with the
refresh token it returns (in this code the login branch that issues
tokens is unreachable — `login_never_issues_tokens` — so the last
conjunct holds for every run that would reach it). -/
theorem C2_refresh_rotation_and_supersession (secret : String) (now : Nat)
    (db : List UserRow) (tok : Token) :
    (∀ a r db2, refresh_token secret now db tok = Except.ok (a, r, db2) →
      ∃ email row, decode_refresh_token secret now tok = Except.ok (some email) ∧
        findUser db email = some row ∧ row.refresh_token = some tok ∧
        findUser db2 email = some { row with refresh_token := some r }) ∧
    (∀ email, decode_refresh_token secret now tok = Except.ok (some email) →
      (∀ row, findUser db email = some row → row.refresh_token ≠ some tok) →
      refresh_token secret now db tok =
        Except.error (PyErr.httpError 401 "Invalid refresh token")) ∧
    (∀ verify username password a r db2,
      login verify secret now db username password = Except.ok (a, r, db2) →
      ∃ row, findUser db username = some row ∧
        findUser db2 row.email = some { row with refresh_token := some r }) := by
  refine ⟨?_, ?_, ?_⟩
  · intro a r db2 hok
    simp only [refresh_token] at hok
    cases hdec : decode_refresh_token secret now tok with
    | error e => simp [hdec] at hok
    | ok subOpt =>
      cases subOpt with
      | none => simp [hdec] at hok
      | some email =>
        simp only [hdec] at hok
        cases hfind : findUser db email with
        | none => simp [hfind] at hok
        | some user =>
          simp only [hfind] at hok
          by_cases hrt : user.refresh_token = some tok
          · simp [hrt] at hok
            refine ⟨email, user, rfl, hfind, hrt, ?_⟩
            rw [← hok.2.2, ← hok.2.1]
            have he2 := findUser_email hfind
            exact findUser_updateUser _ he2 hfind
          · simp [hrt] at hok
  · intro email hdec hrow
    simp only [refresh_token, hdec]
    cases hfind : findUser db email with
    | none => simp [hfind]
    | some user => simp [hfind, hrow user hfind]
  · intro verify username password a r db2 hok
    exact absurd hok
      (login_never_issues_tokens verify secret now db username password (a, r, db2))

/-- C2 witness: the persisted refresh token of the demo user was rotated
(issued at time 5); presenting the superseded token issued at time 0
fails with the 401, via `C2_refresh_rotation_and_supersession`. -/
theorem C2_witness :
    refresh_token "secret" 10 [demoUserR] demoRefreshTok0 =
      Except.error (PyErr.httpError 401 "Invalid refresh token") := by
  have h := (C2_refresh_rotation_and_supersession "secret" 10 [demoUserR]
    demoRefreshTok0).2.1 "a@x.com" rfl
  apply h
  intro row hr
  have h0 : findUser [demoUserR] "a@x.com" = some demoUserR := rfl
  rw [h0] at hr
  injection hr with hr2
  rw [← hr2]
  decide

/-! ### C3 — verification failure taxonomy -/

/-- C3 counterexample: the claim says a malformed payload always makes
`decode_refresh_token` fail with the 401 `InvalidToken` outcome.  A
token produced by `create_email_token` is validly signed but carries
no `scope` claim, and presenting it to `decode_refresh_token` raises
a `KeyError` for the scope key — surfaced as a 500 — which is a different kind
of error. -/
theorem C3_counterexample :
    decode_refresh_token "secret" 0
        (create_email_token "secret" 0 { sub := some "a@x.com" }) =
      Except.error (PyErr.keyError "scope") ∧
    PyErr.keyError "scope" ≠ PyErr.httpError 401 "Could not validate credentials" :=
  ⟨rfl, by decide⟩

/-- C3 (amended): an invalid signature, undecodable input or expired
token makes `decode_refresh_token` fail with the 401
"Could not validate credentials" and the decode in the guard fail with the
401 `credentials_exception`; but a validly signed payload missing the
`scope` claim makes `decode_refresh_token` raise a `KeyError`
for the scope key (a 500, not a 401), a refresh-scoped payload missing `sub` makes it
return `None` as the subject instead of failing, and a payload
missing `sub` makes the guard fail with the 401. -/
theorem C3_decode_failure_taxonomy (secret : String) (now : Nat) (t : Token) :
    (∀ e, jwtDecode secret now t = Except.error e →
      decode_refresh_token secret now t =
        Except.error (PyErr.httpError 401 "Could not validate credentials") ∧
      ∀ cache db, (get_current_user secret now cache db t).1 =
        Except.error credentials_exception) ∧
    (∀ p, jwtDecode secret now t = Except.ok p → p.scope = none →
      decode_refresh_token secret now t = Except.error (PyErr.keyError "scope")) ∧
    (∀ p, jwtDecode secret now t = Except.ok p → p.scope = some "refresh_token" →
      p.sub = none → decode_refresh_token secret now t = Except.ok none) ∧
    (∀ p, jwtDecode secret now t = Except.ok p → p.sub = none →
      ∀ cache db, (get_current_user secret now cache db t).1 =
        Except.error credentials_exception) := by
  refine ⟨?_, ?_, ?_, ?_⟩
  · intro e he
    constructor
    · simp [decode_refresh_token, he]
    · intro cache db
      simp [get_current_user, he]
  · intro p hp hscope
    simp [decode_refresh_token, hp, hscope]
  · intro p hp hscope hsub
    simp [decode_refresh_token, hp, hscope, hsub]
  · intro p hp hsub cache db
    simp [get_current_user, hp, hsub]

/-- C3 witness: an undecodable credential fails with the 401, via
`C3_decode_failure_taxonomy` at a concrete input. -/
theorem C3_witness :
    decode_refresh_token "secret" 0 (Token.garbage "not-a-jwt") =
      Except.error (PyErr.httpError 401 "Could not validate credentials") :=
  ((C3_decode_failure_taxonomy "secret" 0 (Token.garbage "not-a-jwt")).1
    JWTErr.badFormat rfl).1

/-! ### C4 — login outcomes -/

/-- C4: evaluation of `login` at the three credential situations of
the claim: an unknown email and a wrong password both yield the 401
"Invalid credentials", but correct credentials for a persisted
account crash with an `AttributeError` for the confirmed
attribute — an HTTP 500 — instead of reaching the `EmailNotConfirmed` check or issuing tokens,
because the `users` table declares no `confirmed` column and the
handler reads `user.confirmed` on a freshly loaded instance. -/
theorem C4_login_behaviour :
    login demoVerify "secret" 0 [demoUser] "b@y.com" "pw" =
      Except.error (PyErr.httpError 401 "Invalid credentials") ∧
    login demoVerify "secret" 0 [demoUser] "a@x.com" "wrong" =
      Except.error (PyErr.httpError 401 "Invalid credentials") ∧
    login demoVerify "secret" 0 [demoUser] "a@x.com" "pw" =
      Except.error (PyErr.attributeError "confirmed") :=
  ⟨rfl, rfl, rfl⟩

/-! ### C5 — password reset completion -/

/-- C5: `reset_password` fails with the 400 "Invalid code or email"
unless a stored, unexpired code for the email exactly equals the
submitted code and a matching user exists; on success it persists the
hash of the new password on that user and deletes the stored code, so
a second redemption with the same code fails. -/
theorem C5_reset_password_correct (hashPw : String → String) (now now2 : Nat)
    (db : List UserRow) (store : RedisStore) (email code newPw newPw2 : String) :
    (¬ (redisGet store now ("reset_code:" ++ email) = some code ∧
          (findUser db email).isSome) →
      (reset_password hashPw now db store email code newPw).1 =
        Except.error (PyErr.httpError 400 "Invalid code or email")) ∧
    (∀ row, redisGet store now ("reset_code:" ++ email) = some code →
      findUser db email = some row →
      reset_password hashPw now db store email code newPw =
        (Except.ok "Password reset successfully",
         updateUser db email { row with password := hashPw newPw },
         redisDel store ("reset_code:" ++ email)) ∧
      (reset_password hashPw now2
          (updateUser db email { row with password := hashPw newPw })
          (redisDel store ("reset_code:" ++ email)) email code newPw2).1 =
        Except.error (PyErr.httpError 400 "Invalid code or email")) := by
  constructor
  · intro hno
    cases hget : redisGet store now ("reset_code:" ++ email) with
    | none => simp [reset_password, hget]
    | some stored =>
      by_cases hc : stored = code
      · cases hfind : findUser db email with
        | none => simp [reset_password, hget, hc, hfind]
        | some row =>
          exact absurd ⟨hc ▸ hget, by rw [hfind]; rfl⟩ hno
      · simp [reset_password, hget, hc]
  · intro row hget hfind
    constructor
    · simp [reset_password, hget, hfind]
    · simp [reset_password, redisGet_redisDel]

/-- C5 witness: a concrete successful reset followed by a failing
second redemption of the same code, via `C5_reset_password_correct`. -/
theorem C5_witness :
    reset_password demoHash 0 [demoUser]
        [("reset_code:a@x.com", "123456", 3600)] "a@x.com" "123456" "npw" =
      (Except.ok "Password reset successfully",
       updateUser [demoUser] "a@x.com" { demoUser with password := demoHash "npw" },
       redisDel [("reset_code:a@x.com", "123456", 3600)] ("reset_code:" ++ "a@x.com")) ∧
    (reset_password demoHash 1
        (updateUser [demoUser] "a@x.com" { demoUser with password := demoHash "npw" })
        (redisDel [("reset_code:a@x.com", "123456", 3600)] ("reset_code:" ++ "a@x.com"))
        "a@x.com" "123456" "npw2").1 =
      Except.error (PyErr.httpError 400 "Invalid code or email") :=
  (C5_reset_password_correct demoHash 0 1 [demoUser]
    [("reset_code:a@x.com", "123456", 3600)] "a@x.com" "123456" "npw" "npw2").2
    demoUser rfl rfl

/-! ### C6 — anti-enumeration of password-reset requests -/

/-- C6: `request_password_reset` returns the identical generic
response body for a run on an email with an existing account and a
run on an email with no account; the existence of the account does not
flow into the response. -/
theorem C6_uniform_reset_request_response (now1 now2 : Nat) (code1 code2 : String)
    (db1 db2 : List UserRow) (store1 store2 : RedisStore) (email1 email2 : String)
    (hex : (findUser db1 email1).isSome) (hno : findUser db2 email2 = none) :
    (request_password_reset now1 code1 db1 store1 email1).1 =
      (request_password_reset now2 code2 db2 store2 email2).1 := by
  cases hfind : findUser db1 email1 with
  | none => rw [hfind] at hex; simp at hex
  | some u => simp [request_password_reset, hfind, hno]

/-- C6 witness: the two concrete runs produce the same body, via
`C6_uniform_reset_request_response`. -/
theorem C6_witness :
    (request_password_reset 0 "123456" [demoUser] [] "a@x.com").1 =
      (request_password_reset 7 "654321" [] [] "b@y.com").1 :=
  C6_uniform_reset_request_response 0 7 "123456" "654321" [demoUser] [] [] []
    "a@x.com" "b@y.com" rfl rfl

/-! ### C7 — email confirmation -/

/-- C7: evaluation of `confirmed_email` at a valid email-verify token:
with no matching user it fails with the 400 "Verification error" as
the claim says, but with a matching user it crashes with
an `AttributeError` for the confirmed attribute — an HTTP 500 — instead of confirming
or reporting "already confirmed", because the `users` table declares
no `confirmed` column and the handler reads `user.confirmed` on a
freshly loaded instance. -/
theorem C7_confirm_email_behaviour :
    confirmed_email "secret" 0 []
        (create_email_token "secret" 0 { sub := some "a@x.com" }) =
      Except.error (PyErr.httpError 400 "Verification error") ∧
    confirmed_email "secret" 0 [demoUser]
        (create_email_token "secret" 0 { sub := some "a@x.com" }) =
      Except.error (PyErr.attributeError "confirmed") :=
  ⟨rfl, rfl⟩

/-! ### C8 — signup -/

/-- The user persisted by the concrete signup run of the C8
counterexample. -/
def demoSignupUser : UserRow :=
  { id := 2, user_name := "alice", email := "c@x.com",
    password := "hashed:pw", avatar := some "avatar-url", refresh_token := none }

/-- C8 counterexample: the claim says signup persists a new Principal
whose confirmed flag is false.  A concrete successful signup persists
a user that has no confirmed attribute at all — reading it raises
`AttributeError`, it is not the value `false` — because the `users`
table declares no such column and the handler sets none. -/
theorem C8_counterexample :
    signup demoHash (Except.ok "avatar-url") [] "alice" "c@x.com" "pw" 2 =
      Except.ok (demoSignupUser, [demoSignupUser]) ∧
    readConfirmed (loadUser demoSignupUser) =
      Except.error (PyErr.attributeError "confirmed") :=
  ⟨rfl, rfl⟩

/-- C8 (amended): `signup` fails with the 409 Conflict if and only if
the email is already registered; otherwise it persists a new user
whose password field is the hash of the given password and which has
no confirmed attribute (reading it would raise `AttributeError`), and
a failure to derive an avatar is swallowed — the avatar is left
absent and signup still succeeds. -/
theorem C8_signup_correct (hashPw : String → String) (grav : Except String String)
    (db : List UserRow) (name email password : String) (newId : Nat) :
    ((findUser db email).isSome →
      signup hashPw grav db name email password newId =
        Except.error (PyErr.httpError 409 "Email already registered")) ∧
    (findUser db email = none →
      ∃ u, signup hashPw grav db name email password newId = Except.ok (u, db ++ [u]) ∧
        u.email = email ∧ u.user_name = name ∧ u.password = hashPw password ∧
        (loadUser u).confirmed = none ∧ u.refresh_token = none ∧
        (∀ err, grav = Except.error err → u.avatar = none) ∧
        (∀ a, grav = Except.ok a → u.avatar = some a)) := by
  constructor
  · intro h
    cases hfind : findUser db email with
    | none => rw [hfind] at h; simp at h
    | some u => simp [signup, hfind]
  · intro hfind
    refine ⟨{ id := newId, user_name := name, email := email,
              password := hashPw password,
              avatar := match grav with | .ok a => some a | .error _ => none,
              refresh_token := none }, ?_, rfl, rfl, rfl, rfl, rfl, ?_, ?_⟩
    · simp [signup, hfind]
    · intro err hg
      simp [hg]
    · intro a hg
      simp [hg]

/-- C8 witness: a concrete conflicting signup fails with the 409, and
a concrete signup whose avatar derivation fails still succeeds with
an absent avatar, via `C8_signup_correct`. -/
theorem C8_signup_correct_witness :
    signup demoHash (Except.error "gravatar down") [demoUser] "bob" "a@x.com" "pw" 3 =
      Except.error (PyErr.httpError 409 "Email already registered") ∧
    ∃ u, signup demoHash (Except.error "gravatar down") [] "bob" "b@y.com" "pw" 3 =
        Except.ok (u, [u]) ∧ u.avatar = none := by
  constructor
  · exact (C8_signup_correct demoHash (Except.error "gravatar down") [demoUser]
      "bob" "a@x.com" "pw" 3).1 rfl
  · obtain ⟨u, h1, _, _, _, _, _, hav, _⟩ :=
      (C8_signup_correct demoHash (Except.error "gravatar down") [] "bob" "b@y.com"
        "pw" 3).2 rfl
    exact ⟨u, h1, hav "gravatar down" rfl⟩

/-! ### C9 — issue/verify round trip -/

/-- C9: verifying a freshly issued, unexpired token with the matching
verifier returns the subject it was issued for: a refresh token via
`decode_refresh_token`, an access token via the
guard, `get_current_user` (which resolves the user of that subject), and an
email-verify token via `get_email_from_token`. -/
theorem C9_issue_verify_roundtrip (secret : String) (t0 now : Nat) (email : String)
    (da dr : Option Nat) (db : List UserRow) (row : UserRow) (cache : UserCache)
    (hr : now ≤ t0 + dr.getD (7 * 24 * 60 * 60))
    (ha : now ≤ t0 + da.getD (15 * 60))
    (he : now ≤ t0 + 24 * 60 * 60)
    (hcache : cacheGet cache now email = none)
    (hu : findUser db email = some row) :
    decode_refresh_token secret now
        (refresh_access_token secret t0 { sub := some email } dr) =
      Except.ok (some email) ∧
    (get_current_user secret now cache db
        (create_access_token secret t0 { sub := some email } da)).1 =
      Except.ok row ∧
    get_email_from_token secret now
        (create_email_token secret t0 { sub := some email }) =
      Except.ok email := by
  have hjr : jwtDecode secret now
      (refresh_access_token secret t0 { sub := some email } dr) =
      Except.ok { sub := some email, scope := some "refresh_token", iat := t0,
                  exp := t0 + dr.getD (7 * 24 * 60 * 60) } := by
    simp [jwtDecode, refresh_access_token, Nat.not_lt.mpr hr]
  have hja : jwtDecode secret now
      (create_access_token secret t0 { sub := some email } da) =
      Except.ok { sub := some email, scope := some "access_token", iat := t0,
                  exp := t0 + da.getD (15 * 60) } := by
    simp [jwtDecode, create_access_token, Nat.not_lt.mpr ha]
  have hje : jwtDecode secret now
      (create_email_token secret t0 { sub := some email }) =
      Except.ok { sub := some email, scope := none, iat := t0,
                  exp := t0 + 24 * 60 * 60 } := by
    simp [jwtDecode, create_email_token, Nat.not_lt.mpr he]
  refine ⟨?_, ?_, ?_⟩
  · simp [decode_refresh_token, hjr]
  · simp [get_current_user, hja, hcache, hu]
  · simp [get_email_from_token, hje]

/-- C9 witness: the round trip at concrete inputs, via
`C9_issue_verify_roundtrip`. -/
theorem C9_issue_verify_roundtrip_witness :
    decode_refresh_token "secret" 3
        (refresh_access_token "secret" 0 { sub := some "a@x.com" } none) =
      Except.ok (some "a@x.com") ∧
    (get_current_user "secret" 3 [] [demoUser]
        (create_access_token "secret" 0 { sub := some "a@x.com" } none)).1 =
      Except.ok demoUser ∧
    get_email_from_token "secret" 3
        (create_email_token "secret" 0 { sub := some "a@x.com" }) =
      Except.ok "a@x.com" :=
  C9_issue_verify_roundtrip "secret" 0 3 "a@x.com" none none [demoUser] demoUser []
    (by decide) (by decide) (by decide) rfl rfl

/-! ### C10 — failed resets do not consume the code -/

/-- C10: whenever `reset_password` fails — no stored code, expired
code, code mismatch, or no matching user — the user store and the
reset-code store are both returned unchanged: a failed attempt never
consumes the stored code, which is deleted only on the fully
successful path. -/
theorem C10_failed_reset_preserves_state (hashPw : String → String) (now : Nat)
    (db : List UserRow) (store : RedisStore) (email code newPw : String) (e : PyErr)
    (h : (reset_password hashPw now db store email code newPw).1 = Except.error e) :
    (reset_password hashPw now db store email code newPw).2 = (db, store) := by
  cases hget : redisGet store now ("reset_code:" ++ email) with
  | none => simp [reset_password, hget]
  | some stored =>
    by_cases hc : stored = code
    · cases hfind : findUser db email with
      | some row => simp [reset_password, hget, hc, hfind] at h
      | none => simp [reset_password, hget, hc, hfind]
    · simp [reset_password, hget, hc]

/-- C10 witness: a concrete failing reset (empty code store) leaves
both stores unchanged, via `C10_failed_reset_preserves_state`. -/
theorem C10_witness :
    (reset_password demoHash 0 [demoUser] [] "a@x.com" "123456" "npw").2 =
      ([demoUser], ([] : RedisStore)) :=
  C10_failed_reset_preserves_state demoHash 0 [demoUser] [] "a@x.com" "123456" "npw"
    (PyErr.httpError 400 "Invalid code or email") rfl

end FastapiProject
